import Mathlib

/-!
Verification of the publib library (ClvLib): the CBMI type-erasure engine
(`src/cbmi.h`), the tagged-union runtime dispatcher (`src/runtime_dispatcher.h`
with the tuple transforms of `src/tuple_help.h`), and the case-insensitive
string traits (`src/ci_string.h`).

The C++ code is shallowly embedded:

* `ImplCBMI` mirrors the container class of the same name: it owns one
  `std::unique_ptr<Concept> mPoly`, modelled as `Option (Handle α)` (`none`
  is a null `unique_ptr`).  A `Handle` is the heap `Model` object: the
  primary `Model<TypeImplT>` holds the concrete value by value (`owning`),
  the partial specialization `Model<TypeImplT *>` holds a pointer to
  caller-owned storage (`aliasing`), modelled as an index into an explicit
  external `Store`.  The concrete type of the erased value is the type
  parameter `α` (for heterogeneous scenarios a sum type is used).
* The concrete type's copy constructor — what `Model::Clone` invokes via
  `new ModelImpl<Model<TypeImplT>, ...>(mObj)` — is a parameter
  `copyFn : α → Option α`; `none` models the copy constructor throwing.
  `pureCopy` is a well-behaved copy constructor that reproduces the value.
* Fallible operations return `Option`: `none` marks that no result object
  is produced (an exception escaping, or undefined behaviour such as
  dereferencing a null `mPoly`).
* Interface-contract observations are functions `α → β` applied through
  `DelegateTo`; interface mutations are functions `α → α` applied through
  the non-const `DelegateTo`.
-/

namespace ClvLib

/-- External caller-owned storage cells; an address is an index into the list.
Aliasing handles (the `Model<TypeImplT *>` specialization) point into this
store. -/
abbrev Store (α : Type) := List α

/-- Heap `Model` object behind the container's `mPoly` pointer.
`owning v` is `Model<TypeImplT>` holding `TypeImplT mObj` by value;
`aliasing p` is `Model<TypeImplT *>` holding `TypeImplT *mObj`. -/
inductive Handle (α : Type) where
  | owning (v : α)
  | aliasing (p : Nat)
deriving DecidableEq

/-- Clone of a handle, as in `ImplCBMI::Model::Clone`.
`Model<TypeImplT>::Clone` runs `new ModelImpl<Model<TypeImplT>, ...>(mObj)`,
copy-constructing the held value (`copyFn`, which may throw);
`Model<TypeImplT *>::Clone` runs `new ModelImpl<Model<TypeImplT *>, ...>(mObj)`,
copying only the pointer `mObj` — the pointee is not copied. -/
def Handle.clone (copyFn : α → Option α) : Handle α → Option (Handle α)
  | .owning v => (copyFn v).map .owning
  | .aliasing p => some (.aliasing p)

/-- Well-behaved concrete copy constructor: never throws and reproduces the
value. -/
def pureCopy {α : Type} : α → Option α := fun v => some v

/-- Retrieval of the concrete value, `Model::DelegateTo`.
The owning model returns `mObj` itself; the pointer specialization returns
`*mObj`, which dangles (`none`) when the address is not backed by the
store. -/
def Handle.delegateTo (st : Store α) : Handle α → Option α
  | .owning v => some v
  | .aliasing p => st[p]?

/-- Interface mutation applied through the non-const `DelegateTo`: the owning
model updates its own `mObj`; the pointer model updates the external cell
`*mObj` in place. -/
def Handle.mutate (g : α → α) (st : Store α) : Handle α → Option (Handle α × Store α)
  | .owning v => some (.owning (g v), st)
  | .aliasing p => (st[p]?).map fun v => (Handle.aliasing p, st.set p (g v))

/-- Erasure container `ImplCBMI`: exactly one member,
`std::unique_ptr<Concept> mPoly` (`none` = null pointer). -/
structure ImplCBMI (α : Type) where
  mPoly : Option (Handle α)
deriving DecidableEq

/-- Construction from a concrete value (the `ImplCBMI(PolyT &&poly)`
constructor): `mPoly` is a fresh owning `Model` holding the value. -/
def ImplCBMI.ofValue (v : α) : ImplCBMI α := ⟨some (Handle.owning v)⟩

/-- Construction from a pointer to caller-owned storage (the
`ImplCBMI(PolyT *poly)` constructor): `mPoly` is a fresh aliasing
`Model<TypeImplT *>` holding the address. -/
def ImplCBMI.ofPtr (α : Type) (p : Nat) : ImplCBMI α := ⟨some (Handle.aliasing p)⟩

/-- Copy constructor `ImplCBMI(const ImplCBMI &poly)`, whose initializer is
`mPoly(poly.mPoly->Clone())`.  `none` when no destination object is produced:
the source pointer is null (undefined behaviour) or `Clone` throws. -/
def ImplCBMI.copyCtor (copyFn : α → Option α) (src : ImplCBMI α) : Option (ImplCBMI α) :=
  src.mPoly.bind fun h => (h.clone copyFn).map fun t => ⟨some t⟩

/-- Copy assignment `operator=(const ImplCBMI &poly)`:
`if (this != &poly) { auto t = poly.mPoly->Clone(); mPoly.reset(t); }`.
`selfEq` is the runtime test `this == &poly`.  The result pairs the
destination's state after the statement with a success flag: when `Clone`
throws (`false`), `mPoly.reset` was never reached, so the destination keeps
its original handle.  `none` is the undefined behaviour of a null source
pointer. -/
def ImplCBMI.copyAssignRun (copyFn : α → Option α) (dst src : ImplCBMI α)
    (selfEq : Bool) : Option (ImplCBMI α × Bool) :=
  if selfEq then some (dst, true)
  else
    src.mPoly.map fun h =>
      match h.clone copyFn with
      | some t => (⟨some t⟩, true)
      | none => (dst, false)

/-- Move constructor `ImplCBMI(ImplCBMI &&) = default`: member-wise move of
the `unique_ptr`, so the destination takes the source's pointer and the
source's `mPoly` becomes null.  Returns (destination, source after the
move). -/
def ImplCBMI.moveCtor (src : ImplCBMI α) : ImplCBMI α × ImplCBMI α :=
  (⟨src.mPoly⟩, ⟨none⟩)

/-- Move assignment `operator=(ImplCBMI &&poly) = default`: the destination's
old pointer is released and replaced by the source's, the source's `mPoly`
becomes null.  Returns (destination, source after the move). -/
def ImplCBMI.moveAssign (_dst src : ImplCBMI α) : ImplCBMI α × ImplCBMI α :=
  (⟨src.mPoly⟩, ⟨none⟩)

/-- Observable result of an interface-contract operation: the delegating
adapter calls `DelegateTo()` on `*mPoly` and invokes the concrete value's
operation `f`.  `none` when `mPoly` is null or the aliasing pointee is not
backed by the store. -/
def ImplCBMI.observe (c : ImplCBMI α) (st : Store α) (f : α → β) : Option β :=
  c.mPoly.bind fun h => (h.delegateTo st).map f

/-- Mutation of the concrete value through the container's interface
operations (non-const delegation chain). -/
def ImplCBMI.mutateOp (c : ImplCBMI α) (g : α → α) (st : Store α) :
    Option (ImplCBMI α × Store α) :=
  c.mPoly.bind fun h => (h.mutate g st).map fun hs => (⟨some hs.1⟩, hs.2)

/-- C1: copying an owning container is a deep, independently owned clone,
whether the copy `b` is copy-constructed from `a` or copy-assigned from `a`.
The copy constructor of `a = ofValue v` produces a container holding its own
owning handle with an equal value (first conjunct; `pureCopy` is the concrete
type's copy constructor), and copy-assigning any container `dst` from `a`
(`this != &poly`) leaves `dst` in that same state (second conjunct).
Mutating the concrete value through either container's operations rewrites
only that container's own `mObj` and leaves the store — the only medium
shared between distinct owning containers — untouched (third conjunct), so
every observable result on the other container (fourth conjunct, read at `v`
for the untouched copy and at `g v` for the mutated one) is unchanged; the
roles of original and copy are symmetric since both equal `ofValue v`. -/
theorem owning_copy_deep_independent {α β : Type} (v : α) (dst : ImplCBMI α)
    (st : Store α) (g : α → α) (f : α → β) :
    ImplCBMI.copyCtor pureCopy (ImplCBMI.ofValue v) = some (ImplCBMI.ofValue v) ∧
    ImplCBMI.copyAssignRun pureCopy dst (ImplCBMI.ofValue v) false
      = some (ImplCBMI.ofValue v, true) ∧
    (ImplCBMI.ofValue v).mutateOp g st = some (ImplCBMI.ofValue (g v), st) ∧
    (ImplCBMI.ofValue v).observe st f = some (f v) := by
  refine ⟨rfl, rfl, rfl, rfl⟩

/-- C9: self copy assignment (`this == &poly`) takes the guarded branch and
is an identity: the container keeps its handle, every observation is
unchanged, and since `copyFn` is arbitrary — including an always-throwing
copy constructor — no clone of the underlying value can have been
performed. -/
theorem self_assign_identity {α β : Type} (copyFn : α → Option α)
    (a : ImplCBMI α) (st : Store α) (f : α → β) :
    ImplCBMI.copyAssignRun copyFn a a true = some (a, true) ∧
    (ImplCBMI.copyAssignRun copyFn a a true).map (fun r => r.1.observe st f)
      = some (a.observe st f) := by
  exact ⟨rfl, rfl⟩

/-- C6: move construction and move assignment transfer the source's
`unique_ptr` unchanged into the destination (first and third conjuncts —
the very same handle object, so no clone is invoked; indeed neither
operation even consults a copy constructor), hence the destination
reproduces every observable result the source had immediately before the
move (second and fourth conjuncts). -/
theorem move_transfers_handle_no_clone {α β : Type} (a dst : ImplCBMI α)
    (st : Store α) (f : α → β) :
    (ImplCBMI.moveCtor a).1.mPoly = a.mPoly ∧
    (ImplCBMI.moveCtor a).1.observe st f = a.observe st f ∧
    (ImplCBMI.moveAssign dst a).1.mPoly = a.mPoly ∧
    (ImplCBMI.moveAssign dst a).1.observe st f = a.observe st f := by
  exact ⟨rfl, rfl, rfl, rfl⟩

/-- C3: assigning a container wrapping concrete type `X` from one wrapping
concrete type `Y` replaces the destination's handle with a fresh clone of
the source's held value: the resulting destination equals `ofValue (inr y)`
outright — its active concrete type is now `Y`, the previous `X` value `x`
appears nowhere in the result (replaced, never mutated in place) — and every
subsequent observation on it is the observation of a fresh clone of `y`. -/
theorem assign_replaces_identity {X Y β : Type} (x : X) (y : Y)
    (st : Store (X ⊕ Y)) (f : X ⊕ Y → β) :
    ImplCBMI.copyAssignRun pureCopy (ImplCBMI.ofValue (Sum.inl x))
        (ImplCBMI.ofValue (Sum.inr y)) false
      = some (ImplCBMI.ofValue (Sum.inr y), true) ∧
    (ImplCBMI.ofValue (Sum.inr y : X ⊕ Y)).observe st f = some (f (Sum.inr y)) := by
  exact ⟨rfl, rfl⟩

/-- C2: copying an aliasing container produced by the pointer constructor
yields a container that is again aliasing over the same address — the copy
equals the original `ofPtr` container outright, so the pointee is not
deep-copied (first conjunct) — and after mutating the caller-owned cell `x`
directly, the original and (being an equal value) the copy observe the
updated value `v'` identically (second conjunct). -/
theorem aliasing_copy_shares_storage {α β : Type} (p : Nat) (st : Store α)
    (v' : α) (f : α → β) (hp : p < st.length) :
    ImplCBMI.copyCtor pureCopy (ImplCBMI.ofPtr α p) = some (ImplCBMI.ofPtr α p) ∧
    (ImplCBMI.ofPtr α p).observe (st.set p v') f = some (f v') := by
  refine ⟨rfl, ?_⟩
  simp [ImplCBMI.observe, ImplCBMI.ofPtr, Handle.delegateTo,
    List.getElem?_set_self', List.getElem?_eq_getElem hp]

/-- Witness for C2 at a concrete input: one external `Int` cell, address 0,
mutated to 5. -/
theorem aliasing_copy_shares_storage_witness :
    ImplCBMI.copyCtor pureCopy (ImplCBMI.ofPtr Int 0) = some (ImplCBMI.ofPtr Int 0) ∧
    (ImplCBMI.ofPtr Int 0).observe (([0] : Store Int).set 0 5) id = some (id 5) :=
  aliasing_copy_shares_storage 0 [0] 5 id (by decide)

/-- C5 fails as stated: a container that was the source of a move ends with
a null `mPoly` — the defaulted move constructor moves the `unique_ptr` out
of the source.  Concretely, moving from `ofValue 0` leaves the source's
handle null. -/
theorem moved_from_handle_null :
    (ImplCBMI.moveCtor (ImplCBMI.ofValue (0 : Int))).2.mPoly = none := rfl

/-- C5 amended: every constructor produces a container with a non-null
handle wrapping exactly one concrete value, and copy construction, copy
assignment and being the destination of a move preserve this; the one
exception, which the original claim wrongly included, is being the source
of a move construction or move assignment, which leaves the source's handle
null until the source is destroyed or reassigned. -/
theorem handle_nonnull_amended {α : Type} (v : α) (p : Nat)
    (copyFn : α → Option α) (src b dst src2 a m : ImplCBMI α) (se : Bool)
    (res : ImplCBMI α × Bool)
    (hb : ImplCBMI.copyCtor copyFn src = some b)
    (hd : dst.mPoly.isSome = true)
    (hres : ImplCBMI.copyAssignRun copyFn dst src2 se = some res) :
    (ImplCBMI.ofValue v).mPoly.isSome = true ∧
    (ImplCBMI.ofPtr α p).mPoly.isSome = true ∧
    b.mPoly.isSome = true ∧
    res.1.mPoly.isSome = true ∧
    (ImplCBMI.moveCtor a).1.mPoly = a.mPoly ∧
    (ImplCBMI.moveCtor a).2.mPoly = none ∧
    (ImplCBMI.moveAssign m a).1.mPoly = a.mPoly ∧
    (ImplCBMI.moveAssign m a).2.mPoly = none := by
  refine ⟨rfl, rfl, ?_, ?_, rfl, rfl, rfl, rfl⟩
  · rcases src with ⟨_ | h⟩
    · exact absurd hb (by simp [ImplCBMI.copyCtor])
    · simp only [ImplCBMI.copyCtor, Option.some_bind] at hb
      rcases Option.map_eq_some'.mp hb with ⟨t, _, hbt⟩
      rw [← hbt]
      rfl
  · rcases se with _ | _
    · simp only [ImplCBMI.copyAssignRun, Bool.false_eq_true, if_false] at hres
      rcases Option.map_eq_some'.mp hres with ⟨h, _, hre⟩
      subst hre
      rcases hc : h.clone copyFn with _ | t
      · exact hd
      · rfl
    · simp only [ImplCBMI.copyAssignRun, if_true, Option.some_inj] at hres
      subst hres; exact hd

/-- Witness for C5 (amended) at concrete inputs over `Int`. -/
theorem handle_nonnull_amended_witness :
    (ImplCBMI.ofValue (0 : Int)).mPoly.isSome = true ∧
    (ImplCBMI.ofPtr Int 0).mPoly.isSome = true ∧
    (ImplCBMI.ofValue (1 : Int)).mPoly.isSome = true ∧
    ((ImplCBMI.ofValue (3 : Int), true) : ImplCBMI Int × Bool).1.mPoly.isSome = true ∧
    (ImplCBMI.moveCtor (ImplCBMI.ofValue (4 : Int))).1.mPoly
      = (ImplCBMI.ofValue (4 : Int)).mPoly ∧
    (ImplCBMI.moveCtor (ImplCBMI.ofValue (4 : Int))).2.mPoly = none ∧
    (ImplCBMI.moveAssign (ImplCBMI.ofValue (5 : Int)) (ImplCBMI.ofValue (4 : Int))).1.mPoly
      = (ImplCBMI.ofValue (4 : Int)).mPoly ∧
    (ImplCBMI.moveAssign (ImplCBMI.ofValue (5 : Int)) (ImplCBMI.ofValue (4 : Int))).2.mPoly
      = none :=
  handle_nonnull_amended 0 0 pureCopy (ImplCBMI.ofValue 1) (ImplCBMI.ofValue 1)
    (ImplCBMI.ofValue 2) (ImplCBMI.ofValue 3) (ImplCBMI.ofValue 4)
    (ImplCBMI.ofValue 5) false (ImplCBMI.ofValue 3, true) rfl rfl rfl

/-- C10: copy assignment offers the strong guarantee.  The replacement
handle is fully produced by `Clone` before `mPoly.reset` runs, so when the
concrete copy constructor throws (`h.clone copyFn = none`) the destination
still holds its original handle — the post-statement state is literally
`dst` (first conjunct) — and therefore every interface-contract operation
on it returns its pre-assignment result (second conjunct). -/
theorem copy_assign_strong_guarantee {α β : Type} (copyFn : α → Option α)
    (dst src : ImplCBMI α) (h : Handle α) (st : Store α) (f : α → β)
    (hs : src.mPoly = some h) (hf : h.clone copyFn = none) :
    ImplCBMI.copyAssignRun copyFn dst src false = some (dst, false) ∧
    (ImplCBMI.copyAssignRun copyFn dst src false).map (fun r => r.1.observe st f)
      = some (dst.observe st f) := by
  have h1 : ImplCBMI.copyAssignRun copyFn dst src false = some (dst, false) := by
    simp [ImplCBMI.copyAssignRun, hs, hf]
  exact ⟨h1, by rw [h1]; rfl⟩

/-- Witness for C10: an always-throwing copy constructor over `Int`; the
destination `ofValue 1` keeps its handle and its observations. -/
theorem copy_assign_strong_guarantee_witness :
    ImplCBMI.copyAssignRun (fun _ => none) (ImplCBMI.ofValue (1 : Int))
        (ImplCBMI.ofValue 2) false = some (ImplCBMI.ofValue 1, false) ∧
    (ImplCBMI.copyAssignRun (fun _ => none) (ImplCBMI.ofValue (1 : Int))
        (ImplCBMI.ofValue 2) false).map
        (fun r => r.1.observe ([] : Store Int) id)
      = some ((ImplCBMI.ofValue (1 : Int)).observe ([] : Store Int) id) :=
  copy_assign_strong_guarantee (fun _ => none) (ImplCBMI.ofValue 1)
    (ImplCBMI.ofValue 2) (Handle.owning 2) [] id rfl rfl

/-!
Embedding of `src/ci_string.h`.  Characters are byte values (`Nat`); a
`ci_string` is its list of characters, and the null-terminated buffer that
`basic_string::data()` hands to `ci_char_traits::compare` is the list with a
trailing `0`.  A `const char *` cursor inside such a buffer is modelled as
the remaining suffix of the buffer.
-/

/-- C `toupper` in the C locale: lowercase ASCII maps to uppercase, all
other byte values are unchanged. -/
def cToupper (c : Nat) : Nat := if 97 ≤ c ∧ c ≤ 122 then c - 32 else c

/-- Member `ci_char_traits::eq`: `toupper(c1) == toupper(c2)`. -/
def ci_eq (c1 c2 : Nat) : Bool := cToupper c1 == cToupper c2

/-- Member `ci_char_traits::lt`: `toupper(c1) < toupper(c2)`. -/
def ci_lt (c1 c2 : Nat) : Bool := decide (cToupper c1 < cToupper c2)

/-- Member `ci_char_traits::compare`:
`while (n-- && s1 && s2 && eq(*s1++, *s2++)); return *s1 - *s2;`.
Each iteration first tests and decrements `n`, then compares the current
characters while advancing both cursors whether or not they match; the
returned difference therefore reads the characters one past the last pair
the loop examined (`s1`/`s2` are valid, hence non-null, in every call made
by `basic_string`, so the null tests always pass). -/
def ci_compare : List Nat → List Nat → Nat → Int
  | s1, s2, 0 => (s1.headD 0 : Int) - (s2.headD 0 : Int)
  | s1, s2, n + 1 =>
    if ci_eq (s1.headD 0) (s2.headD 0) then ci_compare s1.tail s2.tail n
    else (s1.tail.headD 0 : Int) - (s2.tail.headD 0 : Int)

/-- Member `basic_string::compare(const basic_string &)` for `ci_string`:
`traits::compare` over the first `min` of the lengths of the two
null-terminated buffers, with ties broken by the length difference. -/
def ciStringCompare (s t : List Nat) : Int :=
  let rlen := min s.length t.length
  let r := ci_compare (s ++ [0]) (t ++ [0]) rlen
  if r = 0 then (s.length : Int) - (t.length : Int) else r

/-- Operator `==` on `ci_string`: `lhs.compare(rhs) == 0`. -/
def ciStringEqOp (s t : List Nat) : Bool := ciStringCompare s t == 0

/-- Operator `<` on `ci_string`: `lhs.compare(rhs) < 0`. -/
def ciStringLtOp (s t : List Nat) : Bool := decide (ciStringCompare s t < 0)

/-- C8 fails on the code and the code, not the claim, is at fault: on a
character mismatch `ci_char_traits::compare` has already advanced both
cursors, so it returns the raw difference of the characters one past the
mismatch instead of reporting the mismatch itself (the canonical
implementation the header cites compares in place, case-insensitively).
Concretely `ci_string("ab") == ci_string("xb")` evaluates to `true`
although the first characters are not case-insensitively equal (first two
conjuncts), and `ci_string("a") < ci_string("b")` evaluates to `false`
although uppercase `A` is lexicographically below uppercase `B` (last two
conjuncts). -/
theorem ci_compare_divergence :
    ciStringEqOp [97, 98] [120, 98] = true ∧
    ci_eq 97 120 = false ∧
    ciStringLtOp [97] [98] = false ∧
    ci_lt 97 98 = true := by decide

/-!
Embedding of `src/runtime_dispatcher.h` and the tuple transforms of
`src/tuple_help.h` that build the strict argument check.  C++ type
expressions are a syntax tree; `std::tuple` of types is a `List CppType`.
-/

/-- C++ type expressions as the dispatcher's argument check sees them:
a named base type possibly decorated by cv-qualifiers and a reference. -/
inductive CppType where
  | base (name : String)
  | constQ (t : CppType)
  | volatileQ (t : CppType)
  | lref (t : CppType)
  | rref (t : CppType)
deriving DecidableEq

/-- Trait `std::remove_reference`: strips a top-level reference, if any. -/
def removeReference : CppType → CppType
  | .lref t => t
  | .rref t => t
  | t => t

/-- Trait `std::remove_cv`: strips the top-level cv-qualifiers. -/
def removeCv : CppType → CppType
  | .constQ t => removeCv t
  | .volatileQ t => removeCv t
  | t => t

/-- Alias `remove_reference_tuple_t`: `tuple_transform<std::remove_reference>`
maps the trait over every element type of the tuple. -/
def remove_reference_tuple (ts : List CppType) : List CppType :=
  ts.map removeReference

/-- Alias `remove_cv_tuple_t`: `tuple_transform<std::remove_cv>` maps the
trait over every element type of the tuple. -/
def remove_cv_tuple (ts : List CppType) : List CppType :=
  ts.map removeCv

/-- Stripping pipeline of `RT_DISPATCHIMPL`:
`remove_cv_tuple_t<remove_reference_tuple_t<...>>`. -/
def stripTuple (ts : List CppType) : List CppType :=
  remove_cv_tuple (remove_reference_tuple ts)

/-- One variant alternative as the `std::visit` lambda of `RT_DISPATCHIMPL`
sees it: the declared parameter-type tuple of its `FUNC_NAME` member
(`function_traits<decltype(&T::FUNC_NAME)>::arg_tuple`) and the member
function itself. -/
structure Alt (Arg Res : Type) where
  funcParams : List CppType
  impl : Arg → Res

/-- Outcome of instantiating a strict dispatcher member: the forwarded
call's result, or the compile-time rejection by the `static_assert` with
its message. -/
inductive DispatchResult (Res : Type) where
  | ok (r : Res)
  | staticAssertFail (msg : String)
deriving DecidableEq

/-- Body of the `std::visit` lambda in `RT_DISPATCHIMPL`: strip the declared
parameter tuple and the deduced argument tuple, `static_assert` their
equality with the message "Argument(s) not of expected type", then forward
`v.FUNC_NAME(std::forward<ArgsT>(args)...)`. -/
def dispatchOne (alt : Alt Arg Res) (argTypes : List CppType) (args : Arg) :
    DispatchResult Res :=
  let funcArgTuple := remove_cv_tuple (remove_reference_tuple alt.funcParams)
  let argsTuple := remove_cv_tuple (remove_reference_tuple argTypes)
  if argsTuple = funcArgTuple then DispatchResult.ok (alt.impl args)
  else DispatchResult.staticAssertFail "Argument(s) not of expected type"

/-- C4: a strict-mode dispatcher member call on the tagged union's active
alternative is forwarded, returning the member function's result, exactly
when the deduced argument-type tuple equals the alternative's declared
parameter-type tuple after both are stripped of references and
cv-qualifiers; any other argument-type tuple is rejected by the
`static_assert`, whose message blames the argument types. -/
theorem strict_dispatch_arg_check {Arg Res : Type} (alt : Alt Arg Res)
    (argTypes : List CppType) (args : Arg) :
    (dispatchOne alt argTypes args = DispatchResult.ok (alt.impl args)
      ↔ stripTuple argTypes = stripTuple alt.funcParams) ∧
    (dispatchOne alt argTypes args
        = DispatchResult.staticAssertFail "Argument(s) not of expected type"
      ↔ stripTuple argTypes ≠ stripTuple alt.funcParams) := by
  unfold dispatchOne stripTuple
  by_cases hcond : remove_cv_tuple (remove_reference_tuple argTypes)
      = remove_cv_tuple (remove_reference_tuple alt.funcParams) <;>
    simp [hcond]

/-- Witness for C4: the alternative declares `f(int)`, the call passes a
`const int &` argument (accepted once stripped) — evaluated at the accepted
side of both equivalences. -/
theorem strict_dispatch_arg_check_witness :
    (dispatchOne ⟨[CppType.base "int"], fun n : Nat => n + 1⟩
          [CppType.lref (CppType.constQ (CppType.base "int"))] 7
        = DispatchResult.ok ((fun n : Nat => n + 1) 7)
      ↔ stripTuple [CppType.lref (CppType.constQ (CppType.base "int"))]
        = stripTuple [CppType.base "int"]) ∧
    (dispatchOne ⟨[CppType.base "int"], fun n : Nat => n + 1⟩
          [CppType.lref (CppType.constQ (CppType.base "int"))] 7
        = DispatchResult.staticAssertFail "Argument(s) not of expected type"
      ↔ stripTuple [CppType.lref (CppType.constQ (CppType.base "int"))]
        ≠ stripTuple [CppType.base "int"]) :=
  strict_dispatch_arg_check ⟨[CppType.base "int"], fun n : Nat => n + 1⟩
    [CppType.lref (CppType.constQ (CppType.base "int"))] 7

/-- Concrete type `A` of `tests/runtime_dispatcher_tests.cpp`: constructed
from an `int` offset stored in member `i`. -/
structure A where
  i : Int

/-- Member `A::f3(int ii, double dd)`: returns `ii * dd + i`. -/
def A.f3 (a : A) (ii : Int) (dd : ℚ) : ℚ := (ii : ℚ) * dd + (a.i : ℚ)

/-- Concrete type `B` of `tests/runtime_dispatcher_tests.cpp`: stateless. -/
structure B where

/-- Member `B::f3(int ii, double dd)`: returns `ii * dd`. -/
def B.f3 (_ : B) (ii : Int) (dd : ℚ) : ℚ := (ii : ℚ) * dd

/-- State of `rtab : runtime_dispatch<A, B>`: the discriminated union holds
an `A` or a `B`. -/
inductive rtab where
  | ofA (a : A)
  | ofB (b : B)

/-- Member `rtab::f3`, generated by `RT_DISPATCH(f3)`: `std::visit` applies
the checking-and-forwarding lambda to whichever alternative is active; on
both alternatives `function_traits` reads the declared parameter tuple
`(int, double)`. -/
def rtab.f3 (r : rtab) (argTypes : List CppType) (args : Int × ℚ) :
    DispatchResult ℚ :=
  match r with
  | .ofA a =>
    dispatchOne ⟨[CppType.base "int", CppType.base "double"],
      fun g => a.f3 g.1 g.2⟩ argTypes args
  | .ofB b =>
    dispatchOne ⟨[CppType.base "int", CppType.base "double"],
      fun g => b.f3 g.1 g.2⟩ argTypes args

/-- C7: strict dispatch of `f3(i, d)` routes to the active alternative's own
implementation and returns its exact value — `i * d + offset` when the first
type `A` (offset = member `i`) is active, `i * d` when the second type `B`
is active — and any call whose stripped argument-type tuple is not
`(int, double)` is rejected by the `static_assert` regardless of which
alternative is active. -/
theorem dispatch_f3_routes_active (x ii : Int) (dd : ℚ)
    (argTypes : List CppType) (args : Int × ℚ)
    (hne : stripTuple argTypes ≠ [CppType.base "int", CppType.base "double"]) :
    rtab.f3 (rtab.ofA ⟨x⟩) [CppType.base "int", CppType.base "double"] (ii, dd)
      = DispatchResult.ok ((ii : ℚ) * dd + (x : ℚ)) ∧
    rtab.f3 (rtab.ofB ⟨⟩) [CppType.base "int", CppType.base "double"] (ii, dd)
      = DispatchResult.ok ((ii : ℚ) * dd) ∧
    (∀ r : rtab, rtab.f3 r argTypes args
      = DispatchResult.staticAssertFail "Argument(s) not of expected type") := by
  refine ⟨rfl, rfl, ?_⟩
  intro r
  have hfp : stripTuple [CppType.base "int", CppType.base "double"]
      = [CppType.base "int", CppType.base "double"] := rfl
  rcases r with a | b <;>
    · show dispatchOne _ _ _ = _
      unfold dispatchOne
      rw [if_neg]
      exact fun hcontra => hne (by simpa [stripTuple] using hcontra)

/-- Witness for C7 at concrete inputs: `A(2)` and `B()` with the call
`f3(42, 5.0)`, and the mismatched argument tuple `(int)` rejected. -/
theorem dispatch_f3_routes_active_witness :
    rtab.f3 (rtab.ofA ⟨2⟩) [CppType.base "int", CppType.base "double"] (42, 5)
      = DispatchResult.ok ((42 : ℚ) * 5 + ((2 : Int) : ℚ)) ∧
    rtab.f3 (rtab.ofB ⟨⟩) [CppType.base "int", CppType.base "double"] (42, 5)
      = DispatchResult.ok ((42 : ℚ) * 5) ∧
    (∀ r : rtab, rtab.f3 r [CppType.base "int"] (0, 0)
      = DispatchResult.staticAssertFail "Argument(s) not of expected type") :=
  dispatch_f3_routes_active 2 42 5 [CppType.base "int"] (0, 0) (by decide)

end ClvLib
